import Mathlib

/-!
Verification of the PartyDispo invite-flow pages.

This file gives a shallow embedding of the two invite-flow page variants:

* `Main` — `src/app/i/[token]/page.tsx` (the deployed invite page), and
* `FlowB` — the "FLOW B" variant (`InvitePage` that shows login first and
  loads the invite only after authentication).

Pure helper functions (`normalizePhone`, `sanitizeOtp`, `fmtDay`,
`isValidEmail`) are translated directly from the TypeScript source; the
event handlers (`onSendCode`, `onVerifyCode`, `onRespond`) and the three
asynchronous effects (bootstrap, public preview lookup, post-login invite
load) are modelled as pure functions from the component state and the
outcome of the awaited network calls to the next component state, together
with the list of external service calls performed.  JavaScript exceptions
are modelled with `Except`; a call that resolves with an `error` field and
a call whose promise rejects are represented separately where the code
distinguishes them (`if (error) throw error` merges the two).
-/

namespace PartyDispo

/-- JavaScript `String.prototype.trim` modelled on the character list:
whitespace is stripped from both ends. -/
def trimL (l : List Char) : List Char :=
  ((l.dropWhile Char.isWhitespace).reverse.dropWhile Char.isWhitespace).reverse

/-- JS `.trim()` on strings. -/
def jsTrim (s : String) : String := String.mk (trimL s.toList)

/-- JS `.toLowerCase()` (ASCII case folding suffices for the strings the
pages handle). -/
def jsToLower (s : String) : String := String.mk (s.toList.map Char.toLower)

/-- JS `s.replace(" ", "T")`: replaces only the first space. -/
def replaceFirstSpaceL : List Char → List Char
  | [] => []
  | ' ' :: rest => 'T' :: rest
  | c :: rest => c :: replaceFirstSpaceL rest

/-- JS `raw.replace(" ", "T")` on strings. -/
def jsReplaceFirstSpace (s : String) : String := String.mk (replaceFirstSpaceL s.toList)

/-- Case-insensitive substring test, modelling `/pat/i.test(msg)` for a
literal pattern `pat`. -/
def isInfixOfCI (pat s : String) : Bool :=
  let p := pat.toList.map Char.toLower
  let h := s.toList.map Char.toLower
  (List.range (h.length + 1)).any (fun i => (h.drop i).take p.length == p)

/-- `parseInt(ds, 10)` on a non-empty digit run. -/
def digitsToNat (ds : List Char) : Nat :=
  List.foldl (fun n c => n * 10 + (c.toNat - '0'.toNat)) 0 ds

/-- One attempt of the regex `/after\s+(\d+)\s+seconds/i` anchored at the
head of an (already lower-cased) character list; returns the captured
number on success. -/
def matchAfterSecondsAt (l : List Char) : Option Nat :=
  if l.take 5 == "after".toList then
    let r1 := l.drop 5
    let ws1 := r1.takeWhile Char.isWhitespace
    if ws1.isEmpty then none else
    let r2 := r1.drop ws1.length
    let ds := r2.takeWhile Char.isDigit
    if ds.isEmpty then none else
    let r3 := r2.drop ds.length
    let ws2 := r3.takeWhile Char.isWhitespace
    if ws2.isEmpty then none else
    let r4 := r3.drop ws2.length
    if r4.take 7 == "seconds".toList then some (digitsToNat ds) else none
  else none

/-- Leftmost match of `/after\s+(\d+)\s+seconds/i` over a lower-cased list. -/
def findAfterSeconds : List Char → Option Nat
  | [] => none
  | c :: rest =>
    match matchAfterSecondsAt (c :: rest) with
    | some n => some n
    | none => findAfterSeconds rest

/-- `msg.match(/after\s+(\d+)\s+seconds/i)` followed by `parseInt(m[1], 10)`. -/
def extractAfterSeconds (msg : String) : Option Nat :=
  findAfterSeconds (msg.toList.map Char.toLower)

/-- The UI step enum shared by both invite-flow variants:
`"loading" | "needAuth" | "verifyCode" | "ready" | "done" | "error"`. -/
inductive Step where
  | loading
  | needAuth
  | verifyCode
  | ready
  | done
  | error
deriving DecidableEq, Repr

/-- Position of a step in the order `loading → needAuth → verifyCode →
ready → done` claimed by the spec (`error` sits outside the order). -/
def Step.idx : Step → Nat
  | .loading => 0
  | .needAuth => 1
  | .verifyCode => 2
  | .ready => 3
  | .done => 4
  | .error => 5

/-- The `InviteRow` type returned by the `get_invite_public` RPC. -/
structure InviteRow where
  token : String
  role : String
  party_id : String
  expires_at : Option String
  party_title : Option String
  party_date : Option String
deriving DecidableEq, Repr

/-- External service calls a handler can perform, for tracing which
requests each handler issues. -/
inductive Call where
  | signInWithOtp (email : String)
  | verifyOtp (email code otpType : String)
  | getSession
  | getUser
  | upsertProfile (id firstName lastName phone email sexOrGender updatedAt : String)
  | rpcGetInvite (token : String)
  | rpcRespond (token status : String)
deriving DecidableEq, Repr

/-- Result of `supabase.auth.verifyOtp`: the `error` field and
`data.user?.id`. -/
structure VerifyRes where
  error : Option String
  userId : Option String
deriving DecidableEq, Repr

/-- Result of `supabase.auth.getSession`: the `error` field and
`data.session?.user?.id`. -/
structure SessionRes where
  error : Option String
  userId : Option String
deriving DecidableEq, Repr

/-- Result of the `get_invite_public` RPC: the `error` field and the row
extracted by `Array.isArray(data) ? data[0] : data`. -/
structure RpcInviteRes where
  error : Option String
  row : Option InviteRow
deriving DecidableEq, Repr

/-- The `data` payload of the `respond_party_invite_auth` RPC. -/
structure RespData where
  ok : Bool
deriving DecidableEq, Repr

/-- Result of the `respond_party_invite_auth` RPC. -/
structure RespRes where
  error : Option String
  data : Option RespData
deriving DecidableEq, Repr

/-- The ambient JavaScript date machinery: `parse s` is
`new Date(s).getTime()` (`none` when the result is `NaN`), `fmtIt` is
`toLocaleDateString("it-IT", {weekday, day, month, year})`. -/
structure DateEnv where
  parse : String → Option Int
  fmtIt : Int → String

/-- The regex `/[+-]\d{2}:?\d{2}$/`: the string ends with a sign, two
digits, an optional colon and two digits. -/
def endsWithTzOffset (raw : String) : Bool :=
  let r := raw.toList.reverse
  (match r with
   | a :: b :: ':' :: c :: d :: s :: _ =>
     a.isDigit && b.isDigit && c.isDigit && d.isDigit && (s == '+' || s == '-')
   | _ => false)
  ||
  (match r with
   | a :: b :: c :: d :: s :: _ =>
     a.isDigit && b.isDigit && c.isDigit && d.isDigit && (s == '+' || s == '-')
   | _ => false)

/-- The timezone test `/[zZ]|[+-]\d{2}:?\d{2}$/.test(raw)` used by
`fmtDay`: note that the `[zZ]` alternative is *not* anchored, so a
`z`/`Z` anywhere in the string counts. -/
def hasTzRegex (raw : String) : Bool :=
  raw.toList.any (fun c => c == 'z' || c == 'Z') || endsWithTzOffset raw

/-- The string `fmtDay` hands to `new Date(...)` for a trimmed non-empty
input: `hasTz ? raw : raw.replace(" ", "T") + "+01:00"`. -/
def fmtDayArg (raw : String) : String :=
  if hasTzRegex raw then raw else jsReplaceFirstSpace raw ++ "+01:00"

/-- `fmtDay` from both page variants (the two copies are identical):
`null`/empty/whitespace-only inputs yield `null`, otherwise the input is
parsed (with `+01:00` appended when the timezone test fails) and
formatted, with `null` on an unparseable date. -/
def fmtDay (env : DateEnv) (dateIso : Option String) : Option String :=
  match dateIso with
  | none => none
  | some s =>
    if s = "" then none
    else
      let raw := jsTrim s
      if raw = "" then none
      else
        match env.parse (fmtDayArg raw) with
        | none => none
        | some t => some (env.fmtIt t)

/-- Modelled from the spec: the claim's notion of "carries a timezone
suffix (Z or ±HH:MM)" — a literal `Z` suffix or a `±HH:MM` offset
suffix.  Used only to compare the claim with the code's regex. -/
def claimTzSuffix (raw : String) : Bool :=
  (match raw.toList.reverse with
   | 'Z' :: _ => true
   | _ => false) ||
  (match raw.toList.reverse with
   | a :: b :: ':' :: c :: d :: s :: _ =>
     a.isDigit && b.isDigit && c.isDigit && d.isDigit && (s == '+' || s == '-')
   | _ => false)

/-- The email test `/^[^\s@]+@[^\s@]+\.[^\s@]+$/.test(e.trim().toLowerCase())`
shared by both variants (inlined in Flow B).  The pattern matches exactly
when the string splits as `local@domain` with a single `@`, no whitespace,
a non-empty local part, and a dot in the domain with at least one
character on each side. -/
def isValidEmail (e : String) : Bool :=
  match (jsToLower (jsTrim e)).toList.splitOn '@' with
  | [a, b] =>
    (!a.isEmpty) &&
    (a.all fun c => !c.isWhitespace) &&
    (b.all fun c => !c.isWhitespace) &&
    ((List.range b.length).any fun i =>
      b.get? i == some '.' && decide (1 ≤ i) && decide (i + 1 < b.length))
  | _ => false

namespace Main

/-- `type Sex = "M" | "F"` of the main invite page. -/
inductive Sex where
  | M
  | F
deriving DecidableEq, Repr

/-- The string sent for the `sex` column of the profile payload. -/
def Sex.toStr : Sex → String
  | .M => "M"
  | .F => "F"

/-- The RSVP vocabulary of the main invite page (`"yes" | "no"`). -/
inductive Choice where
  | yes
  | no
deriving DecidableEq, Repr

/-- The `p_status` string sent to the RSVP RPC. -/
def Choice.toStr : Choice → String
  | .yes => "yes"
  | .no => "no"

/-- `normalizePhone` of the main invite page: strip everything but digits
and `+`, keep a `+` only in leading position, and cap at 15 digits. -/
def normalizePhone (p : String) : String :=
  match trimL (p.toList.filter (fun c => c.isDigit || c == '+')) with
  | '+' :: rest => String.mk ('+' :: (rest.filter Char.isDigit).take 15)
  | l => String.mk ((l.filter Char.isDigit).take 15)

/-- `sanitizeOtp` of the main invite page: keep only digits and cap to 8. -/
def sanitizeOtp (code : String) : String :=
  String.mk ((trimL (code.toList.filter Char.isDigit)).take 8)

/-- React state of `InvitePage` in the main variant, together with the
(immutable within one page view) route `token`.  Only fields the claims
touch are retained; form fields are kept because the handlers read them. -/
structure MState where
  token : String
  step : Step
  errorText : Option String
  invite : Option InviteRow
  previewTitle : String
  previewDay : Option String
  firstName : String
  lastName : String
  phone : String
  email : String
  sex : Sex
  otp : String
  otpCooldownSec : Nat
  busy : Bool
  sessionUserId : Option String
  resultStatus : Option Choice
  pendingChoice : Option Choice
deriving DecidableEq, Repr

/-- `setOtpCooldownSec((s) => Math.max(0, s - 1))`: one tick of the
cooldown interval started by `startOtpCooldown`. -/
def tick (s : MState) : MState :=
  { s with otpCooldownSec := s.otpCooldownSec - 1 }

/-- The template string
`Per sicurezza puoi richiedere un nuovo codice tra ${sec}s.`. -/
def cooldownMsg (sec : Nat) : String :=
  "Per sicurezza puoi richiedere un nuovo codice tra " ++ toString sec ++ "s."

/-- Outcome of `supabase.auth.signInWithOtp` in `onSendCode`: `.ok e` is a
resolved call with `error` field `e`; `.error m` is a rejected promise
with message `m` (both reach the same `catch`, via `if (error) throw`). -/
def SendEnv : Type := Except String (Option String)

/-- `/429|too many requests/i.test(msg) || /only request this after/i.test(msg)` -/
def isRateLimitMsg (msg : String) : Bool :=
  isInfixOfCI "429" msg || isInfixOfCI "too many requests" msg ||
    isInfixOfCI "only request this after" msg

/-- The `catch` block of the main page's `onSendCode`: rate-limit
messages start (or refresh) the cooldown, extracting the number of
seconds when present and falling back to 30. -/
def sendCatch (msg : String) (s : MState) : MState :=
  if isRateLimitMsg msg then
    match extractAfterSeconds msg with
    | some sec =>
      let s := if sec > 0 then { s with otpCooldownSec := sec } else s
      { s with errorText := some (cooldownMsg sec), busy := false }
    | none =>
      { s with otpCooldownSec := 30,
               errorText := some "Hai richiesto troppi codici. Riprova tra qualche secondo.",
               busy := false }
  else
    { s with errorText := some "Non sono riuscito a inviare il codice. Riprova.", busy := false }

/-- `onSendCode` of the main invite page.  Returns the next state and the
external calls performed.  The `finally` clause always clears `busy`. -/
def onSendCode (env : SendEnv) (s : MState) : MState × List Call :=
  if s.otpCooldownSec > 0 then
    ({ s with errorText := some (cooldownMsg s.otpCooldownSec), busy := false }, [])
  else
    let s := { s with busy := true, errorText := none }
    let fn := jsTrim s.firstName
    let ln := jsTrim s.lastName
    let ph := normalizePhone s.phone
    let em := jsToLower (jsTrim s.email)
    if fn = "" ∨ ln = "" ∨ ph = "" ∨ em = "" then
      ({ s with errorText := some "Compila nome, cognome, telefono ed email.", busy := false }, [])
    else if ¬ isValidEmail em then
      ({ s with errorText := some "Inserisci un’email valida.", busy := false }, [])
    else if s.token = "" then
      ({ s with errorText := some "Link non valido.", busy := false }, [])
    else
      match env with
      | .ok none =>
        ({ s with otpCooldownSec := 30, otp := "", step := .verifyCode, busy := false },
          [.signInWithOtp em])
      | .ok (some m) => (sendCatch m s, [.signInWithOtp em])
      | .error m => (sendCatch m s, [.signInWithOtp em])

/-- Outcomes of the awaited calls inside the main page's `onVerifyCode`.
`safeClearBrokenSession` only touches the auth client's stored session
(it catches internally and never changes component state), so it is not
modelled.  `upsert` carries the `error` field of the profile upsert. -/
structure VerifyEnv where
  verifyEmail : Except String VerifyRes
  verifyMagic : Except String VerifyRes
  session : Except String SessionRes
  upsert : Except String (Option String)
  nowIso : String

/-- Messages of the `verify.error` branch. -/
def msgOtpExpired : String :=
  "Codice scaduto. Premi \x27Reinvia codice\x27 e usa l’ULTIMO codice ricevuto."

/-- The generic invalid/expired code message of `onVerifyCode`. -/
def msgOtpInvalid : String :=
  "Codice non valido o scaduto. Assicurati di usare l’ULTIMO codice ricevuto."

/-- Message of the `catch` block of the main page's `onVerifyCode`. -/
def msgVerifyCatch : String :=
  "Codice non valido o scaduto. Controlla di aver inserito le 6 cifre ESATTE e che sia l\x27ULTIMO codice ricevuto, poi riprova (o premi Reinvia codice)."

/-- Message chosen by `onVerifyCode` when the profile upsert fails,
depending on the upsert error message. -/
def upsertFailMsg (msg : String) : String :=
  if isInfixOfCI "could not find the \x27gender\x27 column" msg then
    "OTP verificato correttamente ✅. Tuttavia il sito sta provando a scrivere un campo non più presente (gender). Hai già corretto il codice per usare `sex`, quindi ora serve solo una nuova build/deploy del sito (e svuotare la cache del browser) per caricare la versione aggiornata. Nel frattempo puoi continuare."
  else if isInfixOfCI "could not find the \x27sex\x27 column" msg ∨ isInfixOfCI "PGRST204" msg then
    "OTP verificato correttamente ✅. Non riesco a salvare il profilo (colonna `sex` non trovata o schema cache non aggiornata). Puoi continuare, ma per sistemare definitivamente verifica che la tabella `profiles` abbia la colonna `sex` e poi ricarica la schema cache di PostgREST."
  else
    "OTP verificato correttamente ✅. Non riesco a salvare il profilo (probabile RLS). Puoi continuare, ma verifica le RLS sulla tabella `profiles` (permesso di upsert per l’utente autenticato)."

/-- The effective `verifyOtp` result of the main page: first
`type: "email"`, then a `type: "magiclink"` fallback when the first
attempt resolves with an error. -/
def effectiveVerify (env : VerifyEnv) : Except String VerifyRes :=
  match env.verifyEmail with
  | .error m => .error m
  | .ok r => if r.error.isSome then env.verifyMagic else .ok r

/-- The `verifyOtp` calls the main page's `onVerifyCode` performs for a
given environment (the fallback call happens only when the first attempt
resolves with an error). -/
def verifyCalls (env : VerifyEnv) (em code : String) : List Call :=
  match env.verifyEmail with
  | .error _ => [.verifyOtp em code "email"]
  | .ok r =>
    if r.error.isSome then [.verifyOtp em code "email", .verifyOtp em code "magiclink"]
    else [.verifyOtp em code "email"]

/-- `onVerifyCode` of the main invite page: validate email and the
8-digit sanitized code, verify the OTP (with the magiclink fallback),
fetch the session, upsert the profile without letting an upsert failure
block the flow, and move to `ready`. -/
def onVerifyCode (env : VerifyEnv) (s : MState) : MState × List Call :=
  let s := { s with busy := true, errorText := none }
  let em := jsToLower (jsTrim s.email)
  let code := sanitizeOtp s.otp
  if ¬ isValidEmail em then
    ({ s with errorText := some "Email non valida.", busy := false }, [])
  else if code = "" ∨ code.length ≠ 8 then
    ({ s with errorText := some "Inserisci le 8 cifre del codice OTP.", busy := false }, [])
  else
    let calls := verifyCalls env em code
    match effectiveVerify env with
    | .error _ =>
      ({ s with errorText := some msgVerifyCatch, busy := false }, calls)
    | .ok verify =>
      match verify.error with
      | some msg =>
        if isInfixOfCI "expired" msg ∨ isInfixOfCI "scadut" msg then
          ({ s with errorText := some msgOtpExpired, busy := false }, calls)
        else
          ({ s with errorText := some msgOtpInvalid, busy := false }, calls)
      | none =>
        match env.session with
        | .error _ =>
          ({ s with errorText := some msgVerifyCatch, busy := false }, calls ++ [.getSession])
        | .ok sess =>
          let calls := calls ++ [.getSession]
          match sess.error with
          | some _ =>
            ({ s with errorText := some "Accesso riuscito ma non riesco a inizializzare la sessione. Riprova.",
                      busy := false }, calls)
          | none =>
            match sess.userId <|> verify.userId with
            | none =>
              ({ s with errorText := some "Accesso non riuscito. Riprova.", busy := false }, calls)
            | some uid =>
              let s := { s with sessionUserId := some uid }
              let calls := calls ++ [.getUser]
              let fn := jsTrim s.firstName
              let ln := jsTrim s.lastName
              let ph := normalizePhone s.phone
              if fn = "" ∨ ln = "" ∨ ph = "" then
                ({ s with errorText := some "Compila nome, cognome e telefono.", busy := false }, calls)
              else
                let calls := calls ++ [.upsertProfile uid fn ln ph em s.sex.toStr env.nowIso]
                match env.upsert with
                | .error _ =>
                  ({ s with errorText := some msgVerifyCatch, busy := false }, calls)
                | .ok upsertErr =>
                  let s :=
                    match upsertErr with
                    | some msg => { s with errorText := some (upsertFailMsg msg) }
                    | none => s
                  ({ s with pendingChoice := none, resultStatus := none,
                            step := .ready, busy := false }, calls)

/-- `onRespond` of the main invite page: hide the buttons, call the
authenticated RSVP RPC, and reach `done` exactly when the RPC resolves
without error with a truthy `data.ok`. -/
def onRespond (env : RespRes) (next : Choice) (s : MState) : MState × List Call :=
  let s := { s with pendingChoice := some next, busy := true, errorText := none }
  let calls := [Call.rpcRespond s.token next.toStr]
  match env.error with
  | some _ =>
    ({ s with pendingChoice := none,
              errorText := some "Invito non valido oppure scaduto. Chiedi all’organizzatore di reinviarlo.",
              busy := false }, calls)
  | none =>
    match env.data with
    | some d =>
      if d.ok then
        ({ s with resultStatus := some next, step := .done, busy := false }, calls)
      else
        ({ s with pendingChoice := none,
                  errorText := some "Non sono riuscito a registrare la risposta. Riprova.",
                  busy := false }, calls)
    | none =>
      ({ s with pendingChoice := none,
                errorText := some "Non sono riuscito a registrare la risposta. Riprova.",
                busy := false }, calls)

/-- The continuation of the main page's bootstrap effect after its first
await (`safeClearBrokenSession`): `cancelled` is the per-effect flag at
that point.  The missing-token branch runs without consulting the flag. -/
def bootstrapCont (cancelled : Bool) (session : Except String SessionRes) (s : MState) : MState :=
  if s.token = "" then
    { s with step := .error,
             errorText := some "Link non valido: token mancante o URL non corretta." }
  else
    match session with
    | .ok sess =>
      if cancelled then s
      else { s with sessionUserId := sess.userId, step := .needAuth }
    | .error _ =>
      if cancelled then s else { s with step := .needAuth }

/-- The whole bootstrap effect of the main page: the synchronous prefix
(`setStep("loading"); setErrorText(null)`) followed by the continuation. -/
def bootstrap (cancelled : Bool) (session : Except String SessionRes) (s : MState) : MState :=
  bootstrapCont cancelled session { s with step := .loading, errorText := none }

/-- Continuation of the public preview effect after the `get_invite_public`
await.  A rejected promise is swallowed by the empty `catch`. -/
def previewCont (cancelled : Bool) (res : Except String RpcInviteRes) (denv : DateEnv)
    (s : MState) : MState :=
  match res with
  | .error _ => s
  | .ok r =>
    match r.error with
    | some _ =>
      if cancelled then s
      else { s with errorText := some "Non riesco a caricare i dettagli dell’evento. Riprova tra poco." }
    | none =>
      match r.row with
      | none => s
      | some row =>
        if cancelled then s
        else
          let s :=
            match row.party_title with
            | some t => if jsTrim t ≠ "" then { s with previewTitle := jsTrim t } else s
            | none => s
          match fmtDay denv row.party_date with
          | some d => if d ≠ "" then { s with previewDay := some d } else s
          | none => s

/-- The whole public preview effect of the main page (it performs the RPC
only when a token is present). -/
def preview (cancelled : Bool) (res : Except String RpcInviteRes) (denv : DateEnv)
    (s : MState) : MState × List Call :=
  if s.token = "" then (s, [])
  else (previewCont cancelled res denv s, [.rpcGetInvite s.token])

/-- Environment of the post-login invite-load effect: the RPC outcome,
the date parser used on `expires_at`, and `Date.now()`. -/
structure LoadEnv where
  rpc : Except String RpcInviteRes
  parse : String → Option Int
  nowMs : Int

/-- Continuation of the main page's post-login load effect after the RPC
await.  The invite-not-found and invite-expired branches run without
consulting the `cancelled` flag; only the final assignment and the
`catch` are guarded. -/
def postLoginLoadCont (cancelled : Bool) (env : LoadEnv) (s : MState) : MState :=
  let failState :=
    if cancelled then s
    else { s with invite := none,
                  errorText := some "Non riesco a caricare tutti i dettagli dell’invito. Puoi comunque rispondere." }
  match env.rpc with
  | .error _ => failState
  | .ok r =>
    match r.error with
    | some _ => failState
    | none =>
      match r.row with
      | none =>
        { s with invite := none, step := .error,
                 errorText := some "Invito non trovato o non più valido." }
      | some row =>
        let keep : MState := if cancelled then s else { s with invite := some row }
        match row.expires_at with
        | some expStr =>
          match env.parse expStr with
          | some exp =>
            if exp < env.nowMs then
              { s with invite := none, step := .error,
                       errorText := some "Questo invito è scaduto." }
            else keep
          | none => keep
        | none => keep

/-- The whole post-login load effect of the main page: it runs only when
the step is `ready` and a token is present; `setErrorText(null)` happens
before the await. -/
def postLoginLoad (cancelled : Bool) (env : LoadEnv) (s : MState) : MState × List Call :=
  if s.step ≠ Step.ready then (s, [])
  else if s.token = "" then (s, [])
  else (postLoginLoadCont cancelled env { s with errorText := none }, [.rpcGetInvite s.token])

/-- Which handlers the rendered UI of the main page exposes at each step
(`onSendCode` from the needAuth form and the resend button of the
verifyCode section, `onVerifyCode` from the verifyCode section,
`onRespond` from the ready section). -/
def uiAllowsSend (s : MState) : Bool := s.step == .needAuth || s.step == .verifyCode

/-- The verify button is rendered only in the `verifyCode` section. -/
def uiAllowsVerify (s : MState) : Bool := s.step == .verifyCode

/-- The RSVP buttons are rendered only in the `ready` section. -/
def uiAllowsRespond (s : MState) : Bool := s.step == .ready

end Main

namespace FlowB

/-- `type Gender = "male" | "female"` of the Flow B variant. -/
inductive Gender where
  | male
  | female
deriving DecidableEq, Repr

/-- The string sent for the `gender` column of the profile payload. -/
def Gender.toStr : Gender → String
  | .male => "male"
  | .female => "female"

/-- The RSVP vocabulary of the Flow B variant (`"accepted" | "declined"`). -/
inductive ChoiceB where
  | accepted
  | declined
deriving DecidableEq, Repr

/-- The `p_status` string sent to the RSVP RPC. -/
def ChoiceB.toStr : ChoiceB → String
  | .accepted => "accepted"
  | .declined => "declined"

/-- `normalizePhone` of the Flow B variant:
`p.replace(/[^\d+]/g, "").trim()` — no length cap, and every `+` is
kept, not only a leading one. -/
def normalizePhone (p : String) : String :=
  String.mk (trimL (p.toList.filter (fun c => c.isDigit || c == '+')))

/-- React state of the Flow B `InvitePage`, with the route token. -/
structure BState where
  token : String
  step : Step
  errorText : Option String
  invite : Option InviteRow
  previewTitle : String
  previewDay : Option String
  email : String
  otp : String
  firstName : String
  lastName : String
  phone : String
  gender : Gender
  busy : Bool
  sessionUserId : Option String
  resultStatus : Option ChoiceB
  pendingChoice : Option ChoiceB
deriving DecidableEq, Repr

/-- `onSendCode` of Flow B: no cooldown guard and no token check; a
failed send only produces the generic message. -/
def onSendCode (env : Except String (Option String)) (s : BState) : BState × List Call :=
  let s := { s with busy := true, errorText := none }
  let em := jsToLower (jsTrim s.email)
  let fn := jsTrim s.firstName
  let ln := jsTrim s.lastName
  let ph := normalizePhone s.phone
  if fn = "" ∨ ln = "" ∨ ph = "" ∨ em = "" then
    ({ s with errorText := some "Compila nome, cognome, telefono ed email.", busy := false }, [])
  else if ¬ isValidEmail em then
    ({ s with errorText := some "Inserisci un’email valida.", busy := false }, [])
  else
    match env with
    | .ok none => ({ s with step := .verifyCode, busy := false }, [.signInWithOtp em])
    | .ok (some _) =>
      ({ s with errorText := some "Non sono riuscito a inviare il codice. Riprova.", busy := false },
        [.signInWithOtp em])
    | .error _ =>
      ({ s with errorText := some "Non sono riuscito a inviare il codice. Riprova.", busy := false },
        [.signInWithOtp em])

/-- Environment of Flow B's `onVerifyCode`: a single `verifyOtp` call
(no magiclink fallback) and the profile upsert. -/
structure VerifyEnvB where
  verify : Except String VerifyRes
  upsert : Except String (Option String)
  nowIso : String

/-- `onVerifyCode` of Flow B: the raw `otp.trim()` is submitted without
digit sanitization, an upsert failure is thrown (blocking the flow), and
incomplete profile data sends the step back to `needAuth`. -/
def onVerifyCode (env : VerifyEnvB) (s : BState) : BState × List Call :=
  let s := { s with busy := true, errorText := none }
  let em := jsToLower (jsTrim s.email)
  let code := jsTrim s.otp
  if code = "" then
    ({ s with errorText := some "Inserisci il codice.", busy := false }, [])
  else
    let calls := [Call.verifyOtp em code "email"]
    match env.verify with
    | .error _ =>
      ({ s with errorText := some "Codice non valido o scaduto. Riprova.", busy := false }, calls)
    | .ok verify =>
      match verify.error with
      | some _ =>
        ({ s with errorText := some "Codice non valido o scaduto. Riprova.", busy := false }, calls)
      | none =>
        match verify.userId with
        | none =>
          ({ s with errorText := some "Accesso non riuscito. Riprova.", busy := false }, calls)
        | some uid =>
          let s := { s with sessionUserId := some uid }
          let fn := jsTrim s.firstName
          let ln := jsTrim s.lastName
          let ph := normalizePhone s.phone
          if fn = "" ∨ ln = "" ∨ ph = "" ∨ em = "" then
            ({ s with step := .needAuth,
                      errorText := some "Completa i tuoi dati prima di continuare.",
                      busy := false }, calls)
          else
            let calls := calls ++ [.upsertProfile uid fn ln ph em s.gender.toStr env.nowIso]
            match env.upsert with
            | .error _ =>
              ({ s with errorText := some "Codice non valido o scaduto. Riprova.", busy := false },
                calls)
            | .ok (some _) =>
              ({ s with errorText := some "Codice non valido o scaduto. Riprova.", busy := false },
                calls)
            | .ok none =>
              ({ s with step := .ready, busy := false }, calls)

/-- `onRespond` of Flow B (same structure as the main page, with the
`accepted`/`declined` vocabulary). -/
def onRespond (env : RespRes) (next : ChoiceB) (s : BState) : BState × List Call :=
  let s := { s with pendingChoice := some next, busy := true, errorText := none }
  let calls := [Call.rpcRespond s.token next.toStr]
  match env.error with
  | some _ =>
    ({ s with pendingChoice := none,
              errorText := some "Invito non valido oppure scaduto. Chiedi all’organizzatore di reinviarlo.",
              busy := false }, calls)
  | none =>
    match env.data with
    | some d =>
      if d.ok then
        ({ s with resultStatus := some next, errorText := none, step := .done, busy := false }, calls)
      else
        ({ s with pendingChoice := none,
                  errorText := some "Non sono riuscito a registrare la risposta. Riprova.",
                  busy := false }, calls)
    | none =>
      ({ s with pendingChoice := none,
                errorText := some "Non sono riuscito a registrare la risposta. Riprova.",
                busy := false }, calls)

/-- Continuation of Flow B's bootstrap effect after the `getSession`
await (the missing-token branch runs before the await, so it belongs to
the synchronous prefix). -/
def bootstrapCont (cancelled : Bool) (session : Except String SessionRes) (s : BState) : BState :=
  match session with
  | .ok sess =>
    if cancelled then s
    else
      { s with sessionUserId := sess.userId,
               step := if sess.userId.isSome then .ready else .needAuth }
  | .error _ =>
    if cancelled then s else { s with step := .needAuth }

/-- The whole bootstrap effect of Flow B: when a session already exists
the step jumps straight from `loading` to `ready`. -/
def bootstrap (cancelled : Bool) (session : Except String SessionRes) (s : BState) : BState :=
  let s := { s with step := .loading, errorText := none }
  if s.token = "" then
    { s with step := .error,
             errorText := some "Link non valido: token mancante o URL non corretta." }
  else bootstrapCont cancelled session s

/-- Flow B's `onAuthStateChange` listener: any session event with a user
id moves the step to `ready`, from any step. -/
def authStateChange (uid : Option String) (s : BState) : BState :=
  let s := { s with sessionUserId := uid }
  if uid.isSome then { s with step := .ready } else s

/-- Continuation of Flow B's public preview effect (identical in shape
to the main page's). -/
def previewCont (cancelled : Bool) (res : Except String RpcInviteRes) (denv : DateEnv)
    (s : BState) : BState :=
  match res with
  | .error _ => s
  | .ok r =>
    match r.error with
    | some _ =>
      if cancelled then s
      else { s with errorText := some "Non riesco a caricare i dettagli dell’evento. Riprova tra poco." }
    | none =>
      match r.row with
      | none => s
      | some row =>
        if cancelled then s
        else
          let s :=
            match row.party_title with
            | some t => if jsTrim t ≠ "" then { s with previewTitle := jsTrim t } else s
            | none => s
          match fmtDay denv row.party_date with
          | some d => if d ≠ "" then { s with previewDay := some d } else s
          | none => s

/-- Continuation of Flow B's post-login load effect: as in the main
page, the not-found and expired branches ignore the `cancelled` flag. -/
def postLoginLoadCont (cancelled : Bool) (env : Main.LoadEnv) (s : BState) : BState :=
  let failState :=
    if cancelled then s
    else { s with invite := none,
                  errorText := some "Non riesco a caricare i dettagli dell’invito (permessi). Puoi comunque rispondere qui sotto." }
  match env.rpc with
  | .error _ => failState
  | .ok r =>
    match r.error with
    | some _ => failState
    | none =>
      match r.row with
      | none =>
        { s with invite := none, step := .error,
                 errorText := some "Invito non trovato o non più valido." }
      | some row =>
        let keep : BState := if cancelled then s else { s with invite := some row }
        match row.expires_at with
        | some expStr =>
          match env.parse expStr with
          | some exp =>
            if exp < env.nowMs then
              { s with invite := none, step := .error,
                       errorText := some "Questo invito è scaduto." }
            else keep
          | none => keep
        | none => keep

/-- The whole post-login load effect of Flow B: it additionally requires
a session user id before performing the RPC. -/
def postLoginLoad (cancelled : Bool) (env : Main.LoadEnv) (s : BState) : BState × List Call :=
  if s.step ≠ Step.ready then (s, [])
  else if s.sessionUserId = none then (s, [])
  else if s.token = "" then (s, [])
  else (postLoginLoadCont cancelled env { s with errorText := none }, [.rpcGetInvite s.token])

end FlowB

/-! ### Sample states and environments used by witnesses and counterexamples -/

/-- A date environment whose parser rejects everything. -/
def denv0 : DateEnv := { parse := fun _ => none, fmtIt := fun _ => "" }

/-- A main-page state in the `needAuth` step with valid form data. -/
def mNeedAuth : Main.MState :=
  { token := "tok1", step := .needAuth, errorText := none, invite := none,
    previewTitle := "Evento", previewDay := none,
    firstName := "Ada", lastName := "Lo", phone := "+39 333 1234567",
    email := "A@b.cd", sex := .M, otp := "", otpCooldownSec := 0,
    busy := false, sessionUserId := none, resultStatus := none, pendingChoice := none }

/-- A main-page state in the `verifyCode` step with a pasted 8-digit code. -/
def mVerify : Main.MState :=
  { mNeedAuth with step := .verifyCode, otp := "1234 5678" }

/-- A main-page state in the `ready` step. -/
def mReady : Main.MState :=
  { mNeedAuth with step := .ready, sessionUserId := some "u1" }

/-- A Flow B state in the `needAuth` step with valid form data. -/
def bSend : FlowB.BState :=
  { token := "tok1", step := .needAuth, errorText := none, invite := none,
    previewTitle := "Evento", previewDay := none, email := "a@b.cd",
    otp := "", firstName := "Bo", lastName := "Li", phone := "333",
    gender := .male, busy := false, sessionUserId := none,
    resultStatus := none, pendingChoice := none }

/-- A Flow B state in the `verifyCode` step whose OTP field holds a pasted
value with letters and whose first-name field is empty. -/
def bVerify : FlowB.BState :=
  { bSend with step := .verifyCode, otp := "abc12345", firstName := "" }

/-- A load environment whose RPC resolves without error but with no row. -/
def loadEnvNoRow : Main.LoadEnv :=
  { rpc := Except.ok { error := none, row := none }, parse := fun _ => none, nowMs := 0 }

/-- A Supabase rate-limit response to `signInWithOtp`. -/
def rateLimitEnv : Except String (Option String) :=
  Except.ok (some "For security purposes, you can only request this after 45 seconds.")

/-! ### Helper lemmas -/

/-- Characters survive `trimL` only if they were in the input. -/
theorem mem_trimL {c : Char} {l : List Char} (h : c ∈ trimL l) : c ∈ l := by
  unfold trimL at h
  have h1 := List.mem_reverse.mp h
  have h2 := (List.dropWhile_sublist _).subset h1
  have h3 := List.mem_reverse.mp h2
  exact (List.dropWhile_sublist _).subset h3

/-- Every character of a truncated digit filter is a digit. -/
theorem digit_of_mem_take_filter {l : List Char} {n : Nat} {c : Char}
    (h : c ∈ (l.filter Char.isDigit).take n) : c.isDigit = true :=
  List.of_mem_filter (List.mem_of_mem_take h)

/-- Every character of `sanitizeOtp`'s output is a digit. -/
theorem sanitizeOtp_digits {x : String} {c : Char}
    (h : c ∈ (Main.sanitizeOtp x).toList) : c.isDigit = true := by
  unfold Main.sanitizeOtp at h
  exact List.of_mem_filter (mem_trimL (List.mem_of_mem_take h))

/-- `sanitizeOtp` caps its output at 8 characters. -/
theorem sanitizeOtp_length_le (x : String) : (Main.sanitizeOtp x).length ≤ 8 := by
  unfold Main.sanitizeOtp
  show ((trimL (x.toList.filter Char.isDigit)).take 8).length ≤ 8
  simp [List.length_take]

/-! ### Claim C5 — `normalizePhone` -/

/-- Claim C5 is false as stated: it quantifies over "each invite-flow
variant", but Flow B's `normalizePhone` keeps a `+` that is not leading
(`"1+2"` maps to itself) instead of removing every character that is not
a digit and keeping at most a single leading `+`. -/
theorem c5_counterexample :
    FlowB.normalizePhone "1+2" = "1+2" ∧
    ("1+2" : String).toList.get? 1 = some '+' ∧ '+'.isDigit = false := by
  decide

/-- Claim C5 (amended): the main page's `normalizePhone` removes every
character that is not a digit, keeps at most a single leading `+`, and
caps the digit count at 15; Flow B's `normalizePhone` only guarantees
that every output character is a digit or a `+` (kept at any position,
with no length cap). -/
theorem c5_amended :
    (∀ p i c, (Main.normalizePhone p).toList.get? i = some c →
      c.isDigit = true ∨ (i = 0 ∧ c = '+')) ∧
    (∀ p, ((Main.normalizePhone p).toList.filter Char.isDigit).length ≤ 15) ∧
    (∀ p c, c ∈ (FlowB.normalizePhone p).toList → c.isDigit = true ∨ c = '+') := by
  refine ⟨?_, ?_, ?_⟩
  · intro p i c h
    unfold Main.normalizePhone at h
    split at h
    · -- cleaned = '+' :: rest
      cases i with
      | zero =>
        right
        refine ⟨rfl, ?_⟩
        simpa using h.symm
      | succ j =>
        left
        have hm : c ∈ (List.take 15 (List.filter Char.isDigit _)) := List.get?_mem h
        exact digit_of_mem_take_filter hm
    · left
      exact digit_of_mem_take_filter (List.get?_mem h)
  · intro p
    unfold Main.normalizePhone
    split
    · show (List.filter Char.isDigit ('+' :: _)).length ≤ 15
      rw [List.filter_cons_of_neg (by decide)]
      exact le_trans (List.length_filter_le _ _) (by simp [List.length_take])
    · show (List.filter Char.isDigit _).length ≤ 15
      exact le_trans (List.length_filter_le _ _) (by simp [List.length_take])
  · intro p c h
    unfold FlowB.normalizePhone at h
    have := List.of_mem_filter (mem_trimL h)
    rcases Bool.or_eq_true_iff.mp this with h1 | h1
    · exact Or.inl h1
    · exact Or.inr (by simpa using h1)

/-- Witness for the amended C5 at concrete inputs. -/
theorem c5_amended_witness :
    '1'.isDigit = true ∨ (1 = 0 ∧ '1' = '+') :=
  c5_amended.1 "+1 0ab2" 1 '1' (by decide)

/-! ### Claims C7 and C8 — OTP sanitization -/

/-- Any `verifyOtp` entry in the main page's verify-call list carries the
code the handler computed. -/
theorem mem_verifyCalls_code {env : Main.VerifyEnv} {em code e c t : String}
    (h : Call.verifyOtp e c t ∈ Main.verifyCalls env em code) : c = code := by
  unfold Main.verifyCalls at h
  split at h
  · simp only [List.mem_singleton, Call.verifyOtp.injEq] at h
    exact h.2.1
  · split at h
    · simp only [List.mem_cons, List.mem_singleton, List.not_mem_nil, or_false,
        Call.verifyOtp.injEq] at h
      rcases h with h | h <;> exact h.2.1
    · simp only [List.mem_singleton, Call.verifyOtp.injEq] at h
      exact h.2.1

/-- Claim C7 is false as stated: in Flow B the code submitted to
`verifyOtp` is only `otp.trim()`, so a pasted value with letters is sent
as-is. -/
theorem c7_counterexample :
    (FlowB.onVerifyCode
        { verify := Except.ok { error := some "bad", userId := none },
          upsert := Except.ok none, nowIso := "t0" } bVerify).2 =
      [Call.verifyOtp "a@b.cd" "abc12345" "email"] ∧
    'b' ∈ ("abc12345" : String).toList ∧ 'b'.isDigit = false := by
  decide

/-- Claim C7 (amended): the main page submits `sanitizeOtp(otp)`, which
contains only the digits 0-9; Flow B submits the merely whitespace-trimmed
input, which may contain any character. -/
theorem c7_amended :
    (∀ x c, c ∈ (Main.sanitizeOtp x).toList → c.isDigit = true) ∧
    (∀ env s e c t, Call.verifyOtp e c t ∈ (Main.onVerifyCode env s).2 →
      c = Main.sanitizeOtp s.otp) ∧
    (∀ env s e c t, Call.verifyOtp e c t ∈ (FlowB.onVerifyCode env s).2 →
      c = jsTrim s.otp) := by
  refine ⟨fun x c h => sanitizeOtp_digits h, ?_, ?_⟩
  · intro env s e c t h
    simp only [Main.onVerifyCode] at h
    split at h
    · simp at h
    · split at h
      · simp at h
      · split at h
        · exact mem_verifyCalls_code h
        · split at h
          · split at h <;> exact mem_verifyCalls_code h
          · split at h
            · rcases List.mem_append.mp h with h | h
              · exact mem_verifyCalls_code h
              · simp at h
            · split at h
              · rcases List.mem_append.mp h with h | h
                · exact mem_verifyCalls_code h
                · simp at h
              · split at h
                · rcases List.mem_append.mp h with h | h
                  · exact mem_verifyCalls_code h
                  · simp at h
                · split at h
                  · rcases List.mem_append.mp h with h | h
                    · rcases List.mem_append.mp h with h | h
                      · exact mem_verifyCalls_code h
                      · simp at h
                    · simp at h
                  · split at h <;>
                    · rcases List.mem_append.mp h with h | h
                      · rcases List.mem_append.mp h with h | h
                        · rcases List.mem_append.mp h with h | h
                          · exact mem_verifyCalls_code h
                          · simp at h
                        · simp at h
                      · simp at h
  · intro env s e c t h
    simp only [FlowB.onVerifyCode] at h
    split at h
    · simp at h
    · split at h
      · simp_all
      · split at h
        · simp_all
        · split at h
          · simp_all
          · split at h
            · simp_all
            · split at h <;>
              · rcases List.mem_append.mp h with h | h
                · simp_all
                · simp at h

/-- Witness for the amended C7: the main page sends exactly the sanitized
digits of the pasted code. -/
theorem c7_amended_witness : "12345678" = Main.sanitizeOtp "1234 5678" :=
  c7_amended.2.1
    { verifyEmail := Except.ok { error := some "bad", userId := none },
      verifyMagic := Except.ok { error := some "bad", userId := none },
      session := Except.ok { error := none, userId := some "u1" },
      upsert := Except.ok none, nowIso := "t0" }
    mVerify "a@b.cd" "12345678" "email" (by decide)

/-- When the sanitized code does not have exactly 8 digits,
`onVerifyCode` performs no call at all and sets an error message. -/
theorem onVerifyCode_short_code (env : Main.VerifyEnv) (s : Main.MState)
    (h : (Main.sanitizeOtp s.otp).length ≠ 8) :
    (Main.onVerifyCode env s).2 = [] ∧
      ((Main.onVerifyCode env s).1.errorText).isSome = true := by
  simp only [Main.onVerifyCode]
  split
  · exact ⟨rfl, rfl⟩
  · rw [if_pos (Or.inr h)]
    exact ⟨rfl, rfl⟩

/-- Claim C8 (confirmed): `sanitizeOtp` truncates to at most 8 digits,
and the main page's `onVerifyCode` submits the code to the verification
service only when the sanitized code has exactly 8 digits; otherwise it
sets an error message and performs no verification call. -/
theorem c8_otp_length_gate :
    (∀ x, (Main.sanitizeOtp x).length ≤ 8) ∧
    (∀ env s, (Main.sanitizeOtp s.otp).length ≠ 8 →
      (Main.onVerifyCode env s).2 = [] ∧
      ((Main.onVerifyCode env s).1.errorText).isSome = true) ∧
    (∀ env s e c t, Call.verifyOtp e c t ∈ (Main.onVerifyCode env s).2 →
      (Main.sanitizeOtp s.otp).length = 8) := by
  refine ⟨sanitizeOtp_length_le, onVerifyCode_short_code, ?_⟩
  intro env s e c t h
  by_contra hne
  rcases onVerifyCode_short_code env s hne with ⟨h2, _⟩
  rw [h2] at h
  simp at h

/-- Witness for C8: with a 5-digit pasted code the main page performs no
call and reports an error. -/
theorem c8_otp_length_gate_witness :
    (Main.onVerifyCode
        { verifyEmail := Except.ok { error := none, userId := some "u1" },
          verifyMagic := Except.ok { error := none, userId := some "u1" },
          session := Except.ok { error := none, userId := some "u1" },
          upsert := Except.ok none, nowIso := "t0" }
        { mVerify with otp := "123 45" }).2 = [] ∧
    ((Main.onVerifyCode
        { verifyEmail := Except.ok { error := none, userId := some "u1" },
          verifyMagic := Except.ok { error := none, userId := some "u1" },
          session := Except.ok { error := none, userId := some "u1" },
          upsert := Except.ok none, nowIso := "t0" }
        { mVerify with otp := "123 45" }).1.errorText).isSome = true :=
  c8_otp_length_gate.2.1 _ { mVerify with otp := "123 45" } (by decide)

/-! ### Claim C6 — `fmtDay` -/

/-- Claim C6 is false as stated: the code's timezone test matches a
`z`/`Z` *anywhere* in the string, not only as a suffix, so an input such
as `"2024-05-04 10:00 zulu"` (which carries no timezone suffix in the
claim's sense) is parsed as given instead of being interpreted in
`+01:00`. -/
theorem c6_counterexample :
    claimTzSuffix "2024-05-04 10:00 zulu" = false ∧
    fmtDayArg "2024-05-04 10:00 zulu" = "2024-05-04 10:00 zulu" ∧
    fmtDayArg "2024-05-04 10:00 zulu" ≠
      jsReplaceFirstSpace "2024-05-04 10:00 zulu" ++ "+01:00" := by
  decide

/-- Claim C6 (amended): `fmtDay` returns `null` on null, empty,
whitespace-only and unparseable input; an input is parsed as given
exactly when it contains a `z`/`Z` anywhere or ends with a `±HH:MM` or
`±HHMM` offset, and only otherwise is it reinterpreted by appending
`+01:00` (after replacing the first space with `T`). -/
theorem c6_fmtDay_amended :
    (∀ denv, fmtDay denv none = none) ∧
    (∀ denv s, jsTrim s = "" → fmtDay denv (some s) = none) ∧
    (∀ denv s, denv.parse (fmtDayArg (jsTrim s)) = none → fmtDay denv (some s) = none) ∧
    (∀ denv s t, s ≠ "" → jsTrim s ≠ "" → denv.parse (fmtDayArg (jsTrim s)) = some t →
      fmtDay denv (some s) = some (denv.fmtIt t)) ∧
    (∀ raw, ((∃ c ∈ raw.toList, c = 'z' ∨ c = 'Z') ∨ endsWithTzOffset raw = true) →
      fmtDayArg raw = raw) ∧
    (∀ raw, (∀ c ∈ raw.toList, c ≠ 'z' ∧ c ≠ 'Z') → endsWithTzOffset raw = false →
      fmtDayArg raw = jsReplaceFirstSpace raw ++ "+01:00") := by
  refine ⟨fun _ => rfl, ?_, ?_, ?_, ?_, ?_⟩
  · intro denv s h
    by_cases hs : s = ""
    · simp [fmtDay, hs]
    · simp [fmtDay, hs, h]
  · intro denv s h
    by_cases hs : s = ""
    · simp [fmtDay, hs]
    · by_cases hts : jsTrim s = ""
      · simp [fmtDay, hs, hts]
      · simp [fmtDay, hs, hts, h]
  · intro denv s t hs hts h
    simp [fmtDay, hs, hts, h]
  · intro raw h
    have hTz : hasTzRegex raw = true := by
      unfold hasTzRegex
      simp only [Bool.or_eq_true, List.any_eq_true]
      rcases h with ⟨c, hc, hz⟩ | h
      · exact Or.inl ⟨c, hc, by rcases hz with hz | hz <;> simp [hz]⟩
      · exact Or.inr h
    simp [fmtDayArg, hTz]
  · intro raw hz hoff
    have hTz : hasTzRegex raw = false := by
      unfold hasTzRegex
      simp only [hoff, Bool.or_false]
      rw [List.any_eq_false]
      intro c hc
      simp only [Bool.or_eq_true, beq_iff_eq, not_or]
      exact ⟨(hz c hc).1, (hz c hc).2⟩
    simp [fmtDayArg, hTz]

/-- Witness for the amended C6: a concrete `Z`-suffixed timestamp is
parsed as given and formatted with the ambient formatter. -/
theorem c6_fmtDay_amended_witness :
    fmtDay { parse := fun x => if x = "2024-05-04T10:00:00Z" then some 1714816800000 else none,
             fmtIt := fun _ => "sab 04 mag 2024" }
      (some "2024-05-04T10:00:00Z") = some "sab 04 mag 2024" :=
  c6_fmtDay_amended.2.2.2.1 _ "2024-05-04T10:00:00Z" 1714816800000
    (by decide) (by decide) (by decide)

/-! ### Claim C10 — `onRespond` -/

/-- The success condition of the RSVP RPC: no error and a truthy
`data.ok`. -/
def respondOk (env : RespRes) : Prop :=
  env.error = none ∧ ∃ d, env.data = some d ∧ d.ok = true

/-- Claim C10 (confirmed): in both variants `onRespond` reaches `done`
with `resultStatus` equal to the chosen answer exactly when the RPC
resolves without error and with a truthy `data.ok`; otherwise
`pendingChoice` is reset, the step is unchanged and an error message is
set. -/
theorem c10_respond_done_iff :
    (∀ env next s, s.step = Step.ready →
      (((Main.onRespond env next s).1.step = Step.done) ↔ respondOk env) ∧
      ((Main.onRespond env next s).1.step = Step.done →
        (Main.onRespond env next s).1.resultStatus = some next) ∧
      (¬ respondOk env →
        (Main.onRespond env next s).1.pendingChoice = none ∧
        (Main.onRespond env next s).1.step = s.step ∧
        ((Main.onRespond env next s).1.errorText).isSome = true)) ∧
    (∀ env next s, s.step = Step.ready →
      (((FlowB.onRespond env next s).1.step = Step.done) ↔ respondOk env) ∧
      ((FlowB.onRespond env next s).1.step = Step.done →
        (FlowB.onRespond env next s).1.resultStatus = some next) ∧
      (¬ respondOk env →
        (FlowB.onRespond env next s).1.pendingChoice = none ∧
        (FlowB.onRespond env next s).1.step = s.step ∧
        ((FlowB.onRespond env next s).1.errorText).isSome = true)) := by
  constructor
  · intro env next s hs
    obtain ⟨err, data⟩ := env
    cases err with
    | some m => simp [Main.onRespond, respondOk, hs]
    | none =>
      cases data with
      | none => simp [Main.onRespond, respondOk, hs]
      | some d =>
        cases hd : d.ok with
        | true => simp [Main.onRespond, respondOk, hd]
        | false => simp [Main.onRespond, respondOk, hs, hd]
  · intro env next s hs
    obtain ⟨err, data⟩ := env
    cases err with
    | some m => simp [FlowB.onRespond, respondOk, hs]
    | none =>
      cases data with
      | none => simp [FlowB.onRespond, respondOk, hs]
      | some d =>
        cases hd : d.ok with
        | true => simp [FlowB.onRespond, respondOk, hd]
        | false => simp [FlowB.onRespond, respondOk, hs, hd]

/-- Witness for C10: a successful RPC moves the main page to `done` with
the chosen answer recorded. -/
theorem c10_respond_done_iff_witness :
    ((Main.onRespond { error := none, data := some { ok := true } } Main.Choice.yes
        mReady).1.step = Step.done) ↔
      respondOk { error := none, data := some { ok := true } } :=
  (c10_respond_done_iff.1 { error := none, data := some { ok := true } }
    Main.Choice.yes mReady (by decide)).1

/-! ### Claim C4 — resend cooldown -/

/-- Claim C4 is false as stated: it quantifies over every invite-flow
variant, but Flow B has no resend cooldown at all.  After a rate-limit
response whose message contains "after 45 seconds", Flow B maps the
failure to the generic message and the very next `onSendCode` performs
the external send again instead of refusing for 45 seconds. -/
theorem c4_counterexample :
    extractAfterSeconds
        "For security purposes, you can only request this after 45 seconds." = some 45 ∧
    (FlowB.onSendCode rateLimitEnv bSend).1.errorText =
      some "Non sono riuscito a inviare il codice. Riprova." ∧
    (FlowB.onSendCode rateLimitEnv (FlowB.onSendCode rateLimitEnv bSend).1).2 =
      [Call.signInWithOtp "a@b.cd"] := by
  decide

/-- Claim C4 (amended): in the main page, `onSendCode` performs at most
one external call and refuses to send (performing no call) while the
cooldown is positive; a rate-limit failure sets the cooldown to exactly
the extracted N seconds (falling back to 30 when no duration is
extractable), via `sendCatch`.  Flow B performs the send whenever its
field validation passes, with no cooldown refusal. -/
theorem c4_cooldown_amended :
    (∀ env s, s.otpCooldownSec > 0 →
      Main.onSendCode env s =
        ({ s with errorText := some (Main.cooldownMsg s.otpCooldownSec), busy := false }, [])) ∧
    (∀ env s, ((Main.onSendCode env s).2).length ≤ 1) ∧
    (∀ msg s n, Main.isRateLimitMsg msg = true → extractAfterSeconds msg = some n → 0 < n →
      (Main.sendCatch msg s).otpCooldownSec = n) ∧
    (∀ msg s, Main.isRateLimitMsg msg = true → extractAfterSeconds msg = none →
      (Main.sendCatch msg s).otpCooldownSec = 30) ∧
    (∀ env s m, (env = Except.error m ∨ env = Except.ok (some m)) →
      (Main.onSendCode env s).2 ≠ [] →
      (Main.onSendCode env s).1 = Main.sendCatch m { s with busy := true, errorText := none }) ∧
    (∀ env s, jsTrim s.firstName ≠ "" → jsTrim s.lastName ≠ "" →
      FlowB.normalizePhone s.phone ≠ "" → jsToLower (jsTrim s.email) ≠ "" →
      isValidEmail (jsToLower (jsTrim s.email)) = true →
      (FlowB.onSendCode env s).2 = [Call.signInWithOtp (jsToLower (jsTrim s.email))]) := by
  refine ⟨?_, ?_, ?_, ?_, ?_, ?_⟩
  · intro env s h
    simp [Main.onSendCode, h]
  · intro env s
    simp only [Main.onSendCode]
    split
    · simp
    · split
      · simp
      · split
        · simp
        · split
          · simp
          · split <;> simp
  · intro msg s n hrl hex hn
    simp [Main.sendCatch, hrl, hex, hn]
  · intro msg s hrl hex
    simp [Main.sendCatch, hrl, hex]
  · intro env s m henv hne
    by_cases h1 : s.otpCooldownSec > 0
    · simp [Main.onSendCode, h1] at hne
    · by_cases h2 : jsTrim s.firstName = "" ∨ jsTrim s.lastName = "" ∨
        Main.normalizePhone s.phone = "" ∨ jsToLower (jsTrim s.email) = ""
      · simp [Main.onSendCode, h1, h2] at hne
      · by_cases h3 : isValidEmail (jsToLower (jsTrim s.email)) = true
        · by_cases h4 : s.token = ""
          · simp [Main.onSendCode, h1, h2, h3, h4] at hne
          · rcases henv with henv | henv <;> subst henv <;>
              simp [Main.onSendCode, h1, h2, h3, h4]
        · simp [Main.onSendCode, h1, h2, h3] at hne
  · intro env s h1 h2 h3 h4 h5
    simp only [FlowB.onSendCode]
    rw [if_neg (by simp [h1, h2, h3, h4])]
    rw [if_neg (by simp [h5])]
    split <;> rfl

/-- Witness for the amended C4: with a 7-second cooldown pending the
main page refuses and performs no call. -/
theorem c4_cooldown_amended_witness :
    Main.onSendCode (Except.ok none) { mNeedAuth with otpCooldownSec := 7 } =
      ({ mNeedAuth with
          otpCooldownSec := 7,
          errorText := some (Main.cooldownMsg 7), busy := false }, []) :=
  c4_cooldown_amended.1 (Except.ok none) { mNeedAuth with otpCooldownSec := 7 } (by decide)

/-! ### Claim C3 — failures mapped to Italian messages -/

/-- Claim C3 is false as stated: a failure *thrown* by the service during
the public preview lookup is caught by an empty `catch` that sets no
message at all — the state is returned unchanged, with `errorText` still
`null`, instead of an Italian-language message. -/
theorem c3_counterexample :
    Main.previewCont false (Except.error "TypeError: Failed to fetch") denv0 mNeedAuth
      = mNeedAuth ∧
    mNeedAuth.errorText = none := by
  exact ⟨rfl, rfl⟩

/-- Claim C3 (amended): every failure in `onSendCode` (via its catch
helper), `onVerifyCode`, `onRespond` and the post-login load effect
leaves an error message set (the handlers otherwise reach
`verifyCode`/`ready`/`done` or store the loaded invite), and the preview
effect sets a message when the RPC resolves with an error — but a
failure thrown during the preview lookup is silently swallowed.  No
exception escapes any handler (they are total functions into states). -/
theorem c3_failure_messages_amended :
    (∀ m s, ((Main.sendCatch m s).errorText).isSome = true) ∧
    (∀ env s, (Main.onVerifyCode env s).1.step = Step.ready ∨
      ((Main.onVerifyCode env s).1.errorText).isSome = true) ∧
    (∀ env next s, (Main.onRespond env next s).1.step = Step.done ∨
      ((Main.onRespond env next s).1.errorText).isSome = true) ∧
    (∀ env s, ((Main.postLoginLoadCont false env s).errorText).isSome = true ∨
      (∃ row, (Main.postLoginLoadCont false env s).invite = some row)) ∧
    (∀ e row denv s,
      ((Main.previewCont false (Except.ok { error := some e, row := row }) denv s).errorText).isSome
        = true) ∧
    (∀ m denv s, Main.previewCont false (Except.error m) denv s = s) ∧
    (∀ env s, (FlowB.onSendCode env s).1.step = Step.verifyCode ∨
      ((FlowB.onSendCode env s).1.errorText).isSome = true) ∧
    (∀ env s, (FlowB.onVerifyCode env s).1.step = Step.ready ∨
      ((FlowB.onVerifyCode env s).1.errorText).isSome = true) ∧
    (∀ env next s, (FlowB.onRespond env next s).1.step = Step.done ∨
      ((FlowB.onRespond env next s).1.errorText).isSome = true) ∧
    (∀ env s, ((FlowB.postLoginLoadCont false env s).errorText).isSome = true ∨
      (∃ row, (FlowB.postLoginLoadCont false env s).invite = some row)) ∧
    (∀ e row denv s,
      ((FlowB.previewCont false (Except.ok { error := some e, row := row }) denv s).errorText).isSome
        = true) ∧
    (∀ m denv s, FlowB.previewCont false (Except.error m) denv s = s) := by
  refine ⟨?_, ?_, ?_, ?_, fun _ _ _ _ => rfl, fun _ _ _ => rfl,
    ?_, ?_, ?_, ?_, fun _ _ _ _ => rfl, fun _ _ _ => rfl⟩
  · intro m s
    simp only [Main.sendCatch]
    split
    · split <;> rfl
    · rfl
  · intro env s
    simp only [Main.onVerifyCode]
    split
    · right; rfl
    · split
      · right; rfl
      · split
        · right; rfl
        · split
          · split
            · right; rfl
            · right; rfl
          · split
            · right; rfl
            · split
              · right; rfl
              · split
                · right; rfl
                · split
                  · right; rfl
                  · split
                    · right; rfl
                    · left; rfl
  · intro env next s
    simp only [Main.onRespond]
    split
    · right; rfl
    · split
      · split
        · left; rfl
        · right; rfl
      · right; rfl
  · intro env s
    simp only [Main.postLoginLoadCont]
    split
    · left; rfl
    · split
      · left; rfl
      · split
        · left; rfl
        · split
          · split
            · split
              · left; rfl
              · right; exact ⟨_, rfl⟩
            · right; exact ⟨_, rfl⟩
          · right; exact ⟨_, rfl⟩
  · intro env s
    simp only [FlowB.onSendCode]
    split
    · right; rfl
    · split
      · right; rfl
      · split <;> first | (left; rfl) | (right; rfl)
  · intro env s
    simp only [FlowB.onVerifyCode]
    split
    · right; rfl
    · split
      · right; rfl
      · split
        · right; rfl
        · split
          · right; rfl
          · split
            · right; rfl
            · split
              · right; rfl
              · right; rfl
              · left; rfl
  · intro env next s
    simp only [FlowB.onRespond]
    split
    · right; rfl
    · split
      · split
        · left; rfl
        · right; rfl
      · right; rfl
  · intro env s
    simp only [FlowB.postLoginLoadCont]
    split
    · left; rfl
    · split
      · left; rfl
      · split
        · left; rfl
        · split
          · split
            · split
              · left; rfl
              · right; exact ⟨_, rfl⟩
            · right; exact ⟨_, rfl⟩
          · right; exact ⟨_, rfl⟩

/-! ### Claim C2 — the `cancelled` flags -/

/-- Claim C2 is false as stated: in the post-login load effect the
invite-not-found branch runs without consulting the `cancelled` flag, so
with the flag already set the continuation still calls `setStep("error")`
and `setErrorText(...)`. -/
theorem c2_counterexample :
    (Main.postLoginLoadCont true loadEnvNoRow mReady).step = Step.error ∧
    (Main.postLoginLoadCont true loadEnvNoRow mReady).errorText =
      some "Invito non trovato o non più valido." ∧
    mReady.step = Step.ready ∧ mReady.errorText = none := by
  exact ⟨rfl, rfl, rfl, rfl⟩

/-- Claim C2 (amended): with the `cancelled` flag set, the preview
continuations, Flow B's bootstrap continuation, the main bootstrap
continuation when a token is present, and the post-login load
continuation on a thrown/errored RPC or on a present non-expired row all
perform no state update; the invite-not-found and invite-expired
branches of the post-login load (and the missing-token branch of the
main bootstrap) are the unguarded exceptions. -/
theorem c2_cancelled_amended :
    (∀ res denv s, Main.previewCont true res denv s = s) ∧
    (∀ res denv s, FlowB.previewCont true res denv s = s) ∧
    (∀ sess s, s.token ≠ "" → Main.bootstrapCont true sess s = s) ∧
    (∀ sess s, FlowB.bootstrapCont true sess s = s) ∧
    (∀ env s m, env.rpc = Except.error m → Main.postLoginLoadCont true env s = s) ∧
    (∀ env s r, env.rpc = Except.ok r → r.error.isSome = true →
      Main.postLoginLoadCont true env s = s) ∧
    (∀ env s row, env.rpc = Except.ok { error := none, row := some row } →
      (∀ e, row.expires_at = some e → ∀ t, env.parse e = some t → ¬ t < env.nowMs) →
      Main.postLoginLoadCont true env s = s) ∧
    (∀ env s m, env.rpc = Except.error m → FlowB.postLoginLoadCont true env s = s) ∧
    (∀ env s r, env.rpc = Except.ok r → r.error.isSome = true →
      FlowB.postLoginLoadCont true env s = s) ∧
    (∀ env s row, env.rpc = Except.ok { error := none, row := some row } →
      (∀ e, row.expires_at = some e → ∀ t, env.parse e = some t → ¬ t < env.nowMs) →
      FlowB.postLoginLoadCont true env s = s) := by
  refine ⟨?_, ?_, ?_, ?_, ?_, ?_, ?_, ?_, ?_, ?_⟩
  · intro res denv s
    simp only [Main.previewCont]
    split
    · rfl
    · split
      · rfl
      · split
        · rfl
        · rfl
  · intro res denv s
    simp only [FlowB.previewCont]
    split
    · rfl
    · split
      · rfl
      · split
        · rfl
        · rfl
  · intro sess s h
    simp only [Main.bootstrapCont]
    rw [if_neg h]
    split <;> rfl
  · intro sess s
    simp only [FlowB.bootstrapCont]
    split <;> rfl
  · intro env s m h
    simp [Main.postLoginLoadCont, h]
  · intro env s r h he
    obtain ⟨e, he'⟩ := Option.isSome_iff_exists.mp he
    simp [Main.postLoginLoadCont, h, he']
  · intro env s row h hexp
    simp only [Main.postLoginLoadCont, h]
    cases hrow : row.expires_at with
    | none => simp
    | some e =>
      cases hp : env.parse e with
      | none => simp [hp]
      | some t => simp [hp, hexp e hrow t hp]
  · intro env s m h
    simp [FlowB.postLoginLoadCont, h]
  · intro env s r h he
    obtain ⟨e, he'⟩ := Option.isSome_iff_exists.mp he
    simp [FlowB.postLoginLoadCont, h, he']
  · intro env s row h hexp
    simp only [FlowB.postLoginLoadCont, h]
    cases hrow : row.expires_at with
    | none => simp
    | some e =>
      cases hp : env.parse e with
      | none => simp [hp]
      | some t => simp [hp, hexp e hrow t hp]

/-- Witness for the amended C2: a cancelled post-login load whose RPC
threw changes nothing. -/
theorem c2_cancelled_amended_witness :
    Main.postLoginLoadCont true
      { rpc := Except.error "network", parse := fun _ => none, nowMs := 0 } mReady = mReady :=
  c2_cancelled_amended.2.2.2.2.1
    { rpc := Except.error "network", parse := fun _ => none, nowMs := 0 } mReady "network" rfl

/-! ### Claim C9 — profile upsert does not block the flow -/

/-- The upsert-failure notices are distinct from the invalid/expired-code
messages. -/
theorem upsertFailMsg_ne (m : String) :
    Main.upsertFailMsg m ≠ Main.msgOtpExpired ∧ Main.upsertFailMsg m ≠ Main.msgOtpInvalid := by
  unfold Main.upsertFailMsg
  split
  · constructor <;> decide
  · split <;> (constructor <;> decide)

/-- The sanitized code of an 8-digit OTP passes the length gate. -/
theorem code_gate_pass (s : Main.MState) (hLen : (Main.sanitizeOtp s.otp).length = 8) :
    ¬ (Main.sanitizeOtp s.otp = "" ∨ (Main.sanitizeOtp s.otp).length ≠ 8) := by
  rw [not_or]
  refine ⟨?_, fun hn => hn hLen⟩
  intro h0
  rw [h0] at hLen
  simp at hLen

/-- Shape of `onVerifyCode` on the success path: with the OTP verified,
a session user id available and complete profile fields, the handler
ends in `ready` with `pendingChoice`/`resultStatus` reset, and the
error text is exactly the upsert failure notice (or `none`). -/
theorem onVerifyCode_success_shape
    (env : Main.VerifyEnv) (s : Main.MState) (v : VerifyRes) (sess : SessionRes)
    (uid : String) (uerr : Option String)
    (hEm : isValidEmail (jsToLower (jsTrim s.email)) = true)
    (hLen : (Main.sanitizeOtp s.otp).length = 8)
    (hV : Main.effectiveVerify env = Except.ok v) (hVe : v.error = none)
    (hS : env.session = Except.ok sess) (hSe : sess.error = none)
    (hU : (sess.userId <|> v.userId) = some uid)
    (h1 : jsTrim s.firstName ≠ "") (h2 : jsTrim s.lastName ≠ "")
    (h3 : Main.normalizePhone s.phone ≠ "")
    (hUp : env.upsert = Except.ok uerr) :
    Main.onVerifyCode env s =
      ({ s with
          step := Step.ready,
          errorText := (match uerr with
            | some m => some (Main.upsertFailMsg m)
            | none => none),
          busy := false, sessionUserId := some uid,
          resultStatus := none, pendingChoice := none },
        Main.verifyCalls env (jsToLower (jsTrim s.email)) (Main.sanitizeOtp s.otp) ++
          [Call.getSession] ++ [Call.getUser] ++
          [Call.upsertProfile uid (jsTrim s.firstName) (jsTrim s.lastName)
            (Main.normalizePhone s.phone) (jsToLower (jsTrim s.email)) s.sex.toStr
            env.nowIso]) := by
  have hc := code_gate_pass s hLen
  simp only [Main.onVerifyCode, hV, hVe, hS, hSe, hU, hUp]
  rw [if_neg (by simp [hEm]), if_neg hc, if_neg (by simp [h1, h2, h3])]
  cases uerr <;> rfl

/-- Claim C9 (confirmed), part by part: once the OTP verification
succeeded (on either attempt), the session is in place with a user id
and the name/phone fields are filled, `onVerifyCode` reaches `ready`
with `resultStatus` and `pendingChoice` reset for *any* resolved upsert
outcome, and the resulting states for a failed and a successful upsert
differ only in `errorText`; the invalid-code branch is taken exactly
when both the `email` and the `magiclink` attempts fail. -/
theorem c9_upsert_nonblocking :
    (∀ env s v sess uid uerr,
      isValidEmail (jsToLower (jsTrim s.email)) = true →
      (Main.sanitizeOtp s.otp).length = 8 →
      Main.effectiveVerify env = Except.ok v → v.error = none →
      env.session = Except.ok sess → sess.error = none →
      (sess.userId <|> v.userId) = some uid →
      jsTrim s.firstName ≠ "" → jsTrim s.lastName ≠ "" → Main.normalizePhone s.phone ≠ "" →
      env.upsert = Except.ok uerr →
      (Main.onVerifyCode env s).1.step = Step.ready ∧
      (Main.onVerifyCode env s).1.resultStatus = none ∧
      (Main.onVerifyCode env s).1.pendingChoice = none ∧
      (Main.onVerifyCode env s).1.sessionUserId = some uid ∧
      (Main.onVerifyCode env s).1 =
        { (Main.onVerifyCode { env with upsert := Except.ok none } s).1 with
          errorText := (Main.onVerifyCode env s).1.errorText }) ∧
    (∀ env s r1 r2 e1 e2,
      isValidEmail (jsToLower (jsTrim s.email)) = true →
      (Main.sanitizeOtp s.otp).length = 8 →
      env.verifyEmail = Except.ok r1 → r1.error = some e1 →
      env.verifyMagic = Except.ok r2 → r2.error = some e2 →
      (Main.onVerifyCode env s).1.step = s.step ∧
      ((Main.onVerifyCode env s).1.errorText = some Main.msgOtpExpired ∨
        (Main.onVerifyCode env s).1.errorText = some Main.msgOtpInvalid)) ∧
    (∀ env s r1,
      env.verifyEmail = Except.ok r1 → r1.error = none →
      (Main.onVerifyCode env s).1.errorText ≠ some Main.msgOtpExpired ∧
      (Main.onVerifyCode env s).1.errorText ≠ some Main.msgOtpInvalid) ∧
    (∀ env s r1 e1 r2,
      env.verifyEmail = Except.ok r1 → r1.error = some e1 →
      env.verifyMagic = Except.ok r2 → r2.error = none →
      (Main.onVerifyCode env s).1.errorText ≠ some Main.msgOtpExpired ∧
      (Main.onVerifyCode env s).1.errorText ≠ some Main.msgOtpInvalid) := by
  have postVerify : ∀ (env : Main.VerifyEnv) (s : Main.MState) r1,
      Main.effectiveVerify env = Except.ok r1 → r1.error = none →
      (Main.onVerifyCode env s).1.errorText ≠ some Main.msgOtpExpired ∧
      (Main.onVerifyCode env s).1.errorText ≠ some Main.msgOtpInvalid := by
    intro env s r1 hV h1e
    simp only [Main.onVerifyCode, hV, h1e]
    split
    · constructor <;> (intro hc; exact absurd (Option.some.inj hc) (by decide))
    · split
      · constructor <;> (intro hc; exact absurd (Option.some.inj hc) (by decide))
      · split
        · constructor <;> (intro hc; exact absurd (Option.some.inj hc) (by decide))
        · split
          · constructor <;> (intro hc; exact absurd (Option.some.inj hc) (by decide))
          · split
            · constructor <;> (intro hc; exact absurd (Option.some.inj hc) (by decide))
            · split
              · constructor <;> (intro hc; exact absurd (Option.some.inj hc) (by decide))
              · split
                · constructor <;> (intro hc; exact absurd (Option.some.inj hc) (by decide))
                · rename_i uerr heq
                  cases uerr with
                  | some m =>
                    constructor
                    · intro hc
                      exact absurd (Option.some.inj hc) (upsertFailMsg_ne m).1
                    · intro hc
                      exact absurd (Option.some.inj hc) (upsertFailMsg_ne m).2
                  | none => constructor <;> simp
  refine ⟨?_, ?_, ?_, ?_⟩
  · intro env s v sess uid uerr hEm hLen hV hVe hS hSe hU h1 h2 h3 hUp
    have key :=
      onVerifyCode_success_shape env s v sess uid uerr hEm hLen hV hVe hS hSe hU h1 h2 h3 hUp
    have keyN :=
      onVerifyCode_success_shape { env with upsert := Except.ok none } s v sess uid none
        hEm hLen hV hVe hS hSe hU h1 h2 h3 rfl
    rw [key, keyN]
    exact ⟨rfl, rfl, rfl, rfl, by cases uerr <;> rfl⟩
  · intro env s r1 r2 e1 e2 hEm hLen h1 h1e h2 h2e
    have hc := code_gate_pass s hLen
    have hV : Main.effectiveVerify env = Except.ok r2 := by
      unfold Main.effectiveVerify
      rw [h1]
      simp [h1e, h2]
    simp only [Main.onVerifyCode, hV, h2e]
    rw [if_neg (by simp [hEm]), if_neg hc]
    constructor
    · split <;> rfl
    · split
      · exact Or.inl rfl
      · exact Or.inr rfl
  · intro env s r1 h1 h1e
    have hV : Main.effectiveVerify env = Except.ok r1 := by
      unfold Main.effectiveVerify
      rw [h1]
      simp [h1e]
    exact postVerify env s r1 hV h1e
  · intro env s r1 e1 r2 h1 h1e h2 h2e
    have hV : Main.effectiveVerify env = Except.ok r2 := by
      unfold Main.effectiveVerify
      rw [h1]
      simp [h1e, h2]
    exact postVerify env s r2 hV h2e

/-- A verify environment whose OTP verification succeeds but whose
profile upsert fails with an RLS error. -/
def env9 : Main.VerifyEnv :=
  { verifyEmail := Except.ok { error := none, userId := some "u1" },
    verifyMagic := Except.ok { error := some "unused", userId := none },
    session := Except.ok { error := none, userId := some "u1" },
    upsert := Except.ok (some "permission denied for table profiles"),
    nowIso := "2026-01-01T00:00:00.000Z" }

/-- Witness for C9: despite the failed upsert the flow reaches `ready`
with the RSVP state reset. -/
theorem c9_upsert_nonblocking_witness :
    (Main.onVerifyCode env9 mVerify).1.step = Step.ready ∧
    (Main.onVerifyCode env9 mVerify).1.resultStatus = none ∧
    (Main.onVerifyCode env9 mVerify).1.pendingChoice = none :=
  have h :=
    c9_upsert_nonblocking.1 env9 mVerify { error := none, userId := some "u1" }
      { error := none, userId := some "u1" } "u1"
      (some "permission denied for table profiles")
      (by decide) (by decide) rfl rfl rfl rfl rfl
      (by decide) (by decide) (by decide) rfl
  ⟨h.1, h.2.1, h.2.2.1⟩

/-! ### Claim C1 — the step order -/

/-- Claim C1 is false as stated: in Flow B a successful OTP verification
with an incomplete profile form moves the step *backwards* from
`verifyCode` to `needAuth`, so the step variable does not only move
along the order loading → needAuth → verifyCode → ready → done. -/
theorem c1_counterexample :
    bVerify.step = Step.verifyCode ∧
    (FlowB.onVerifyCode
        { verify := Except.ok { error := none, userId := some "u1" },
          upsert := Except.ok none, nowIso := "t0" } bVerify).1.step = Step.needAuth ∧
    Step.idx Step.needAuth < Step.idx Step.verifyCode := by
  decide

/-- Claim C1 (amended): in the main page the step only moves forward
along the claimed order — bootstrap ends in `needAuth` (or `error`
without a token, or stays in `loading` when cancelled), `onSendCode`
moves only to `verifyCode`, `onVerifyCode` only to `ready`, `onRespond`
only to `done`, the effects move only into `error`, and in the `error`
step the UI exposes no step-changing handler and the load effect is
inert.  In Flow B the bootstrap may additionally jump straight to
`ready`, the auth-state listener moves any step to `ready`, and
`onVerifyCode` may fall back to `needAuth`.  In both variants `error` is
entered only by the bootstrap (missing token) and the post-login load
effect. -/
theorem c1_step_order_amended :
    (∀ c sess s, (Main.bootstrap c sess s).step =
      if s.token = "" then Step.error else if c then Step.loading else Step.needAuth) ∧
    (∀ env s, (Main.onSendCode env s).1.step = s.step ∨
      (Main.onSendCode env s).1.step = Step.verifyCode) ∧
    (∀ env s, (Main.onVerifyCode env s).1.step = s.step ∨
      (Main.onVerifyCode env s).1.step = Step.ready) ∧
    (∀ env next s, (Main.onRespond env next s).1.step = s.step ∨
      (Main.onRespond env next s).1.step = Step.done) ∧
    (∀ c env s, (Main.postLoginLoadCont c env s).step = s.step ∨
      (Main.postLoginLoadCont c env s).step = Step.error) ∧
    (∀ c res denv s, (Main.previewCont c res denv s).step = s.step) ∧
    (∀ c env s, s.step = Step.error → Main.postLoginLoad c env s = (s, [])) ∧
    (∀ s : Main.MState, s.step = Step.error →
      Main.uiAllowsSend s = false ∧ Main.uiAllowsVerify s = false ∧
        Main.uiAllowsRespond s = false) ∧
    (∀ env s, (FlowB.onSendCode env s).1.step = s.step ∨
      (FlowB.onSendCode env s).1.step = Step.verifyCode) ∧
    (∀ env s, (FlowB.onVerifyCode env s).1.step = s.step ∨
      (FlowB.onVerifyCode env s).1.step = Step.needAuth ∨
      (FlowB.onVerifyCode env s).1.step = Step.ready) ∧
    (∀ env next s, (FlowB.onRespond env next s).1.step = s.step ∨
      (FlowB.onRespond env next s).1.step = Step.done) ∧
    (∀ c sess s, (FlowB.bootstrap c sess s).step = Step.error ∨
      (FlowB.bootstrap c sess s).step = Step.loading ∨
      (FlowB.bootstrap c sess s).step = Step.needAuth ∨
      (FlowB.bootstrap c sess s).step = Step.ready) ∧
    (∀ uid s, (FlowB.authStateChange uid s).step = s.step ∨
      (FlowB.authStateChange uid s).step = Step.ready) ∧
    (∀ c env s, (FlowB.postLoginLoadCont c env s).step = s.step ∨
      (FlowB.postLoginLoadCont c env s).step = Step.error) ∧
    (∀ c res denv s, (FlowB.previewCont c res denv s).step = s.step) := by
  refine ⟨?_, ?_, ?_, ?_, ?_, ?_, ?_, ?_, ?_, ?_, ?_, ?_, ?_, ?_, ?_⟩
  · intro c sess s
    simp only [Main.bootstrap, Main.bootstrapCont]
    by_cases ht : s.token = ""
    · simp [ht]
    · cases sess <;> cases c <;> simp [ht]
  · intro env s
    simp only [Main.onSendCode, Main.sendCatch]
    repeat' split
    all_goals first | (left; rfl) | (right; rfl)
  · intro env s
    simp only [Main.onVerifyCode]
    repeat' split
    all_goals first | (left; rfl) | (right; rfl)
  · intro env next s
    simp only [Main.onRespond]
    repeat' split
    all_goals first | (left; rfl) | (right; rfl)
  · intro c env s
    simp only [Main.postLoginLoadCont]
    repeat' split
    all_goals first | (left; rfl) | (right; rfl)
  · intro c res denv s
    simp only [Main.previewCont]
    repeat' split
    all_goals rfl
  · intro c env s h
    simp [Main.postLoginLoad, h]
  · intro s h
    simp [Main.uiAllowsSend, Main.uiAllowsVerify, Main.uiAllowsRespond, h]
  · intro env s
    simp only [FlowB.onSendCode]
    repeat' split
    all_goals first | (left; rfl) | (right; rfl)
  · intro env s
    simp only [FlowB.onVerifyCode]
    repeat' split
    all_goals first | (left; rfl) | (right; left; rfl) | (right; right; rfl)
  · intro env next s
    simp only [FlowB.onRespond]
    repeat' split
    all_goals first | (left; rfl) | (right; rfl)
  · intro c sess s
    simp only [FlowB.bootstrap, FlowB.bootstrapCont]
    repeat' split
    all_goals first | (left; rfl) | (right; left; rfl) | (right; right; left; rfl) |
      (right; right; right; rfl)
  · intro uid s
    simp only [FlowB.authStateChange]
    repeat' split
    all_goals first | (left; rfl) | (right; rfl)
  · intro c env s
    simp only [FlowB.postLoginLoadCont]
    repeat' split
    all_goals first | (left; rfl) | (right; rfl)
  · intro c res denv s
    simp only [FlowB.previewCont]
    repeat' split
    all_goals rfl

/-- Witness for the amended C1: the inert load effect and the disabled
UI handlers in the `error` step at a concrete state. -/
theorem c1_step_order_amended_witness :
    Main.postLoginLoad false loadEnvNoRow { mReady with step := Step.error } =
      ({ mReady with step := Step.error }, []) ∧
    Main.uiAllowsSend { mReady with step := Step.error } = false :=
  ⟨c1_step_order_amended.2.2.2.2.2.2.1 false loadEnvNoRow
      { mReady with step := Step.error } rfl,
    (c1_step_order_amended.2.2.2.2.2.2.2.1 { mReady with step := Step.error } rfl).1⟩

end PartyDispo
